import Mathlib

/-!
Verification of the task-orchestration action in `src/index.js` against its
design specification.  The JavaScript source is shallowly embedded below:
pure fragments of `main` become Lean functions, the stateful orchestration
becomes a pure function from an environment of collaborator behaviours to a
result record carrying the event trace and the observable outputs.
-/

namespace AwsEcsRunTask

/-! ## String helpers

The JavaScript string operations used by `src/index.js` are embedded as
structurally recursive functions over the character list of a `String`, so
that every definition evaluates inside the kernel. -/

/-- Split a character list at every occurrence of the separator, mirroring
the JavaScript `String.prototype.split` with a single-character separator. -/
def splitOnChar (c : Char) : List Char → List (List Char)
  | [] => [[]]
  | x :: xs =>
      let r := splitOnChar c xs
      if x == c then [] :: r
      else
        match r with
        | [] => [[x]]
        | h :: t => (x :: h) :: t

/-- Modelled from the spec: the input layer (out of scope per spec section 1)
delivers each multiline input as the sequence of its lines with empty lines
removed; this is the behaviour of the actions toolkit `getMultilineInput`
used at src/index.js lines 33-41, whose implementation is not part of src/. -/
def getMultilineInput (raw : String) : List String :=
  ((splitOnChar '\n' raw.toList).map (fun l => (⟨l⟩ : String))).filter
    (fun x => decide (x ≠ ""))

/-- JS `x.endsWith('\\')` (src/index.js line 71): does the fragment end with
the continuation marker, a single trailing backslash? -/
def endsWithBackslash (x : String) : Bool :=
  match x.toList.getLast? with
  | some c => c == '\\'
  | none => false

/-- JS `x.replace(/\\$/, '')` (src/index.js line 73): remove one trailing
backslash when present. -/
def stripMarker (x : String) : String :=
  if endsWithBackslash x then ⟨x.toList.dropLast⟩ else x

/-! ## Override Builder: command parsing (src/index.js lines 65-88)

The source iterates over the fragment array with `map`, mutating the array in
place: a fragment ending in the continuation marker has the marker stripped
and, unless it is the last fragment, is prepended to the next fragment while
its own slot is set to `null`; finally `filter(x => x)` drops `null` slots and
empty strings.  `scanAux cur rest` processes the slot currently holding `cur`
with the unvisited suffix `rest`, returning the final slot contents. -/

def scanAux (cur : String) : List String → List (Option String)
  | [] =>
      if endsWithBackslash cur then [some (stripMarker cur)] else [some cur]
  | y :: rest =>
      if endsWithBackslash cur then
        none :: scanAux (stripMarker cur ++ y) rest
      else
        some cur :: scanAux y rest

def scanCommand : List String → List (Option String)
  | [] => []
  | x :: xs => scanAux x xs

/-- JS truthiness used by `filter(x => x)` (src/index.js line 85): `null` and
the empty string are dropped. -/
def truthy : Option String → Option String
  | none => none
  | some s => if s = "" then none else some s

/-- The `parsedCommand` value of src/index.js line 85. -/
def parsedCommand (l : List String) : List String :=
  (scanCommand l).filterMap truthy

/-! ## Override Builder: environment parsing (src/index.js lines 91-100) -/

/-- Split a character list at the first `=`, keeping everything after it
verbatim; mirrors `x.split(/=(.*)/)` keeping `parts[0]` and `parts[1]`,
where `parts[1]` is `undefined` when the fragment holds no `=`. -/
def breakOnEq : List Char → List Char × Option (List Char)
  | [] => ([], none)
  | x :: xs =>
      if x == '=' then ([], some xs)
      else
        let r := breakOnEq xs
        (x :: r.1, r.2)

/-- One `{name, value}` environment entry (src/index.js lines 94-98). -/
def parseEnvEntry (x : String) : String × Option String :=
  let r := breakOnEq x.toList
  (⟨r.1⟩, r.2.map (fun l => (⟨l⟩ : String)))

/-- The environment override array (src/index.js line 93): a plain `map`,
so duplicate names pass through untouched. -/
def parseEnvironment (l : List String) : List (String × Option String) :=
  l.map parseEnvEntry

/-! ## State Waiter (src/index.js lines 120-137) -/

/-- The `$waiter` parameters passed to both waits (src/index.js
lines 125-128 and 133-136). -/
structure WaitSpec where
  delaySeconds : Nat
  maxAttempts : Nat
  deriving DecidableEq

/-- The fixed delay passed to both waiters (src/index.js lines 126 and 134). -/
def waiterDelaySeconds : Nat := 6

/-- Modelled from the spec: the waiter loop itself lives in the AWS SDK, not
in src/; per spec section 4.3 it polls the task description once per attempt
and fails with `WaitTimeout` when the attempt budget is exhausted.
`waitPolls status i fuel` polls `status` starting at poll index `i` with
`fuel` remaining attempts and returns `(pollsPerformed, reached)`. -/
def waitPolls (status : Nat → Bool) : Nat → Nat → Nat × Bool
  | _, 0 => (0, false)
  | i, fuel + 1 =>
      if status i then (1, true)
      else
        let r := waitPolls status (i + 1) fuel
        (r.1 + 1, r.2)

/-- One full bounded wait, as invoked by `ecs.waitFor` (src/index.js
lines 122-137). -/
def waitFor (status : Nat → Bool) (sp : WaitSpec) : Nat × Bool :=
  waitPolls status 0 sp.maxAttempts

/-- Modelled from the spec: the failure surfaced when a wait exhausts its
attempt budget (spec section 7, `WaitTimeout`). -/
def waitTimeoutMessage : String := "WaitTimeout"

/-! ## Log destination discovery (src/index.js lines 143-180) -/

structure LogConfiguration where
  logDriver : String
  /-- The `awslogs-stream-prefix` option of the container's log
  configuration (src/index.js line 160). -/
  streamPfx : String
  deriving DecidableEq

structure ContainerDef where
  name : String
  logConfiguration : Option LogConfiguration
  deriving DecidableEq

/-- The early `return false` of the `.some` callback (src/index.js
lines 154-156): with an override container given, every other container is
skipped. -/
def skipByName (ov : Option String) (c : ContainerDef) : Bool :=
  match ov with
  | some o => decide (c.name ≠ o)
  | none => false

/-- The `.some` scan over `containerDefinitions` (src/index.js
lines 150-178): the first non-skipped container whose log configuration
declares the `awslogs` driver is selected. -/
def findLogContainer (ov : Option String) :
    List ContainerDef → Option (ContainerDef × LogConfiguration)
  | [] => none
  | c :: rest =>
      if skipByName ov c then findLogContainer ov rest
      else
        match c.logConfiguration with
        | some lc =>
            if lc.logDriver = "awslogs" then some (c, lc)
            else findLogContainer ov rest
        | none => findLogContainer ov rest

/-- JS `taskArn.split('/').pop()` (src/index.js line 115). -/
def taskIdOf (arn : String) : String :=
  ⟨(splitOnChar '/' arn.toList).getLastD []⟩

/-- The joined stream identity computed for the debug message
(src/index.js line 160): `[streamPfx, containerName, taskId].join('/')`. -/
def streamNameOf (lc : LogConfiguration) (cname taskId : String) : String :=
  lc.streamPfx ++ "/" ++ cname ++ "/" ++ taskId

/-- The literal log group name passed to `pollLogEvents`
(src/index.js line 163). -/
def placeholderLogGroup : String := "log-group-name"

/-- The literal log stream name passed to `pollLogEvents`
(src/index.js line 163). -/
def placeholderLogStream : String := "log-stream-name"

/-! ## Log polling (src/index.js lines 13-27) -/

structure LogEvent where
  timestamp : Nat
  message : String
  deriving DecidableEq

/-- The closure state captured by `pollLogEvents(logGroupName,
logStreamName, startTime)` (src/index.js line 13).  All three fields are
captured once and are immutable: the body never reassigns them, so every
invocation of the closure issues the same request. -/
structure LogPollClosure where
  logGroupName : String
  logStreamName : String
  startTime : Nat
  deriving DecidableEq

def pollLogEvents (g s : String) (t : Nat) : LogPollClosure := ⟨g, s, t⟩

/-- Modelled from the spec: the log service call `GetLogEvents`
(spec section 6) returns the events of the stream at or after the requested
start time; the service itself is an external collaborator. -/
def getLogEvents (stream : List LogEvent) (startTime : Nat) : List LogEvent :=
  stream.filter (fun e => decide (startTime ≤ e.timestamp))

/-- What one invocation of the closure prints (src/index.js lines 21-26):
the fetched event batch on success, a diagnostic on a failed fetch. -/
inductive ConsoleLine where
  | events : List LogEvent → ConsoleLine
  | fetchError : String → ConsoleLine
  deriving DecidableEq

def exceptOk {ε α : Type} : Except ε α → Bool
  | Except.ok _ => true
  | Except.error _ => false

/-- One invocation of the poll closure (src/index.js lines 14-26): sends the
command built from the captured parameters; a failed fetch is caught by the
`try`/`catch` and logged (lines 24-26), so the invocation always returns
normally. `service` is the remote call's outcome for a given request. -/
def invokePoll (c : LogPollClosure)
    (service : LogPollClosure → Except String (List LogEvent)) :
    Except String (List ConsoleLine) :=
  match service c with
  | Except.ok evs => Except.ok [ConsoleLine.events evs]
  | Except.error e => Except.ok [ConsoleLine.fetchError e]

/-- `n` successive invocations of the same poll closure against a fixed
stream: since the closure holds no mutable cursor, every invocation fetches
from the same captured `startTime`. -/
def repeatedPollEmissions (c : LogPollClosure) (stream : List LogEvent) :
    Nat → List LogEvent
  | 0 => []
  | n + 1 => getLogEvents stream c.startTime ++ repeatedPollEmissions c stream n

/-! ## The orchestration of `main` (src/index.js lines 6-205)

`MainEnv` packages the collaborator behaviours `main` observes: the poll
outcomes of the two waiters, the task-definition metadata, and the final
task description.  `mainRun` follows the statement order of `main`: run the
task, wait for running, wait for stopped, then (only then, per lines
120-180) discover the log configuration and arm the poll closure.  On the
armed path, line 165 immediately calls `logFilterStream.on('error', ...)`
on the value armed at line 163 — the plain async function returned by
`pollLogEvents`, which has no `on` method — so a `TypeError` is thrown
there and lines 183-200 (close, log-output export, final describe,
exit-code reconciliation) never run.  Only when the tailer is not armed
does the final describe reconcile the exit code (lines 191-200).  Any
throw — a waiter timeout or the `TypeError` — is caught by the outer
`catch` (lines 201-204), which reports the failure and skips everything
after the throw. -/

structure MainEnv where
  maxAttempts : Nat
  runningStatus : Nat → Bool
  stoppedStatus : Nat → Bool
  tailLogs : Bool
  overrideContainer : Option String
  containerDefinitions : List ContainerDef
  taskArn : String
  exitCode : Option Nat
  stoppedReason : Option String

inductive Ev where
  | runTask : Ev
  | runningPoll : Nat → Ev
  | stoppedPoll : Nat → Ev
  | armTailer : String → String → Ev
  | describeFinal : Ev
  | reportFailed : Option String → Ev
  deriving DecidableEq

structure MainResult where
  trace : List Ev
  runningWaitSpec : WaitSpec
  runningPolls : Nat
  /-- `some m` when `core.setFailed` was called with message `m` (where
  `none` inside stands for JS `undefined`); `none` when the run succeeded. -/
  failed : Option (Option String)
  tailerArmed : Bool
  armedLogGroup : Option String
  armedLogStream : Option String
  debugStreamName : Option String
  logOutput : Option String
  deriving DecidableEq

/-- The aborted tail of `main` after a waiter throw: the outer `catch`
(src/index.js lines 201-204) reports the failure; nothing after the throw
runs. -/
def timeoutResult (sp : WaitSpec) (p1 : Nat) (t : List Ev) : MainResult :=
  { trace := t ++ [Ev.reportFailed (some waitTimeoutMessage)]
    runningWaitSpec := sp
    runningPolls := p1
    failed := some (some waitTimeoutMessage)
    tailerArmed := false
    armedLogGroup := none
    armedLogStream := none
    debugStreamName := none
    logOutput := none }

/-- The message of the `TypeError` thrown at src/index.js line 165:
`logFilterStream` holds the plain async function returned by
`pollLogEvents` (armed at line 163), and a JavaScript function has no `on`
method, so `logFilterStream.on('error', ...)` throws with this message and
the outer catch reports it. -/
def onIsNotAFunctionMessage : String := "logFilterStream.on is not a function"

/-- The Result Reconciler (src/index.js lines 191-200), reached only when
the tailer was never armed (the armed path throws at line 165 first):
describe the task; when the first container's exit code differs from `0`
(also when it is absent, since `undefined !== 0`), report failure with the
task's `stoppedReason` exactly as it is, present or not.  `logOutput` stays
unset because the export at line 188 is guarded by `logFilterStream !==
null`. -/
def finishResult (env : MainEnv) (sp : WaitSpec) (p1 : Nat)
    (t : List Ev) : MainResult :=
  if env.exitCode = some 0 then
    { trace := t ++ [Ev.describeFinal]
      runningWaitSpec := sp
      runningPolls := p1
      failed := none
      tailerArmed := false
      armedLogGroup := none
      armedLogStream := none
      debugStreamName := none
      logOutput := none }
  else
    { trace := t ++ [Ev.describeFinal, Ev.reportFailed env.stoppedReason]
      runningWaitSpec := sp
      runningPolls := p1
      failed := some env.stoppedReason
      tailerArmed := false
      armedLogGroup := none
      armedLogStream := none
      debugStreamName := none
      logOutput := none }

/-- The log container the tail block would select (src/index.js lines
143-180): present only when tailing was requested and the scan of the
container definitions found a match. -/
def armedContainer (env : MainEnv) : Option (ContainerDef × LogConfiguration) :=
  if env.tailLogs then
    findLogContainer env.overrideContainer env.containerDefinitions
  else none

/-- The code after both waits complete (src/index.js lines 139-200): when
the discovery selects a container, line 163 arms the poll closure with the
placeholder group and stream names (the joined name of line 160 feeds only
the debug message), and line 165 then throws the `TypeError` — the run
aborts into the outer catch and the close/export/describe code of lines
183-200 never executes.  Only when nothing is armed does the exit-code
reconciliation run. -/
def tailAndReconcile (env : MainEnv) (sp : WaitSpec) (p1 : Nat)
    (t2 : List Ev) : MainResult :=
  match armedContainer env with
  | some cl =>
      { trace := t2 ++ [Ev.armTailer placeholderLogGroup placeholderLogStream,
                        Ev.reportFailed (some onIsNotAFunctionMessage)]
        runningWaitSpec := sp
        runningPolls := p1
        failed := some (some onIsNotAFunctionMessage)
        tailerArmed := true
        armedLogGroup := some placeholderLogGroup
        armedLogStream := some placeholderLogStream
        debugStreamName := some (streamNameOf cl.2 cl.1.name (taskIdOf env.taskArn))
        logOutput := none }
  | none =>
      finishResult env sp p1 t2

def mainRun (env : MainEnv) : MainResult :=
  let sp : WaitSpec := ⟨waiterDelaySeconds, env.maxAttempts⟩
  let w1 := waitFor env.runningStatus sp
  let t1 : List Ev := Ev.runTask :: (List.range w1.1).map Ev.runningPoll
  if w1.2 then
    let w2 := waitFor env.stoppedStatus sp
    let t2 := t1 ++ (List.range w2.1).map Ev.stoppedPoll
    if w2.2 then
      tailAndReconcile env sp w1.1 t2
    else
      timeoutResult sp w1.1 t2
  else
    timeoutResult sp w1.1 t1

/-! ## Concrete environments used by the closed theorems -/

/-- A run whose task is never observed running. -/
def envNever : MainEnv :=
  { maxAttempts := 3
    runningStatus := fun _ => false
    stoppedStatus := fun _ => false
    tailLogs := false
    overrideContainer := none
    containerDefinitions := []
    taskArn := "arn:aws:ecs:us-east-1:000000000000:task/demo/789abc"
    exitCode := none
    stoppedReason := none }

/-- A run that stops with both the exit code and the stopped reason absent. -/
def envAbsent : MainEnv :=
  { maxAttempts := 1
    runningStatus := fun _ => true
    stoppedStatus := fun _ => true
    tailLogs := false
    overrideContainer := none
    containerDefinitions := []
    taskArn := "arn:aws:ecs:us-east-1:000000000000:task/demo/0123456789abcdef"
    exitCode := none
    stoppedReason := none }

/-- A run killed with exit code 137 and a stopped reason. -/
def envOom : MainEnv :=
  { maxAttempts := 1
    runningStatus := fun _ => true
    stoppedStatus := fun _ => true
    tailLogs := false
    overrideContainer := none
    containerDefinitions := []
    taskArn := "arn:aws:ecs:us-east-1:000000000000:task/demo/def456"
    exitCode := some 137
    stoppedReason := some "OutOfMemoryError: Container killed due to memory usage" }

def demoContainer : ContainerDef :=
  { name := "app"
    logConfiguration := some { logDriver := "awslogs", streamPfx := "svc" } }

/-- A run with log tailing requested, a matching awslogs container, and
exit code 0 — in the source this run nevertheless fails, because arming
the tailer throws at src/index.js line 165. -/
def envTail : MainEnv :=
  { maxAttempts := 1
    runningStatus := fun _ => true
    stoppedStatus := fun _ => true
    tailLogs := true
    overrideContainer := none
    containerDefinitions := [demoContainer]
    taskArn := "arn:aws:ecs:us-east-1:000000000000:task/demo/abc123"
    exitCode := some 0
    stoppedReason := none }

/-! ## Helper lemmas -/

theorem waitPolls_never (status : Nat → Bool) (h : ∀ i, status i = false) :
    ∀ fuel i, waitPolls status i fuel = (fuel, false) := by
  intro fuel
  induction fuel with
  | zero => intro i; rfl
  | succ m ih =>
      intro i
      simp [waitPolls, h i, ih (i + 1)]

theorem waitFor_never (status : Nat → Bool) (h : ∀ i, status i = false)
    (sp : WaitSpec) : waitFor status sp = (sp.maxAttempts, false) :=
  waitPolls_never status h sp.maxAttempts 0

theorem mainRun_never_running (env : MainEnv)
    (h : ∀ i, env.runningStatus i = false) :
    mainRun env = timeoutResult ⟨waiterDelaySeconds, env.maxAttempts⟩
      env.maxAttempts
      (Ev.runTask :: (List.range env.maxAttempts).map Ev.runningPoll) := by
  simp [mainRun, waitFor_never env.runningStatus h]

theorem finishResult_failed (env : MainEnv) (sp : WaitSpec) (p1 : Nat)
    (t : List Ev) :
    (finishResult env sp p1 t).failed =
      if env.exitCode = some 0 then none else some env.stoppedReason := by
  by_cases hx : env.exitCode = some 0 <;> simp [finishResult, hx]

theorem tailAndReconcile_failed_of_none (env : MainEnv) (sp : WaitSpec)
    (p1 : Nat) (t2 : List Ev) (h3 : armedContainer env = none) :
    (tailAndReconcile env sp p1 t2).failed =
      if env.exitCode = some 0 then none else some env.stoppedReason := by
  unfold tailAndReconcile
  rw [h3]
  exact finishResult_failed env sp p1 t2

theorem mainRun_failed_of_waits (env : MainEnv)
    (h1 : (waitFor env.runningStatus ⟨waiterDelaySeconds, env.maxAttempts⟩).2 = true)
    (h2 : (waitFor env.stoppedStatus ⟨waiterDelaySeconds, env.maxAttempts⟩).2 = true)
    (h3 : armedContainer env = none) :
    (mainRun env).failed =
      if env.exitCode = some 0 then none else some env.stoppedReason := by
  simp [mainRun, h1, h2]
  rw [tailAndReconcile_failed_of_none env _ _ _ h3]

theorem scanAux_no_marker : ∀ (l : List String) (cur : String),
    endsWithBackslash cur = false → (∀ x ∈ l, endsWithBackslash x = false) →
    scanAux cur l = (cur :: l).map some := by
  intro l
  induction l with
  | nil => intro cur hc _; simp [scanAux, hc]
  | cons y rest ih =>
      intro cur hc hl
      have hy : endsWithBackslash y = false := hl y (List.mem_cons_self y rest)
      have hrest : ∀ x ∈ rest, endsWithBackslash x = false :=
        fun x hx => hl x (List.mem_cons_of_mem y hx)
      simp [scanAux, hc, ih y hy hrest]

theorem scanCommand_no_marker (l : List String)
    (hl : ∀ x ∈ l, endsWithBackslash x = false) :
    scanCommand l = l.map some := by
  cases l with
  | nil => rfl
  | cons x xs =>
      exact scanAux_no_marker xs x (hl x (List.mem_cons_self x xs))
        (fun y hy => hl y (List.mem_cons_of_mem x hy))

theorem filterMap_truthy_map_some (l : List String) (hl : ∀ x ∈ l, x ≠ "") :
    (l.map some).filterMap truthy = l := by
  induction l with
  | nil => rfl
  | cons x xs ih =>
      have hx : x ≠ "" := hl x (List.mem_cons_self x xs)
      have ih2 := ih (fun y hy => hl y (List.mem_cons_of_mem x hy))
      simp [List.filterMap_cons, truthy, hx, ih2]

theorem getMultilineInput_ne_empty (raw : String) :
    ∀ x ∈ getMultilineInput raw, x ≠ "" := by
  intro x hx
  simp only [getMultilineInput, List.mem_filter, decide_eq_true_eq] at hx
  exact hx.2

theorem scanCommand_cons_of_ne (p : String) (t : List String)
    (hp : endsWithBackslash p = false) (ht : t ≠ []) :
    scanCommand (p :: t) = some p :: scanCommand t := by
  cases t with
  | nil => exact absurd rfl ht
  | cons y rest => simp [scanCommand, scanAux, hp]

theorem scanCommand_append (pre l : List String)
    (hpre : ∀ x ∈ pre, endsWithBackslash x = false) (hl : l ≠ []) :
    scanCommand (pre ++ l) = pre.map some ++ scanCommand l := by
  induction pre with
  | nil => simp
  | cons p ps ih =>
      have hp : endsWithBackslash p = false := hpre p (List.mem_cons_self p ps)
      have hps : ∀ x ∈ ps, endsWithBackslash x = false :=
        fun x hx => hpre x (List.mem_cons_of_mem p hx)
      have hne : ps ++ l ≠ [] := by
        intro hcontra
        exact hl (List.append_eq_nil.mp hcontra).2
      rw [List.cons_append, scanCommand_cons_of_ne p (ps ++ l) hp hne, ih hps]
      simp

theorem breakOnEq_first (l1 l2 : List Char) (h : '=' ∉ l1) :
    breakOnEq (l1 ++ '=' :: l2) = (l1, some l2) := by
  induction l1 with
  | nil => simp [breakOnEq]
  | cons c cs ih =>
      have hc : (c == '=') = false := by
        refine beq_eq_false_iff_ne.mpr ?_
        intro e
        exact h (by simp [e])
      have hcs : '=' ∉ cs := fun hm => h (List.mem_cons_of_mem c hm)
      simp [breakOnEq, hc, ih hcs]

/-! ## The claims -/

/-- Claim C1: in a run whose task status is never observed running, the
running-wait performs exactly `maxAttempts` polls at the fixed 6-second
delay, fails with the wait timeout, and the remaining orchestration is
aborted: no stopped-wait poll occurs and the tailer is never armed. -/
theorem c1_running_wait_timeout (env : MainEnv)
    (h : ∀ i, env.runningStatus i = false) :
    (mainRun env).runningPolls = env.maxAttempts ∧
    (mainRun env).runningWaitSpec.delaySeconds = 6 ∧
    (mainRun env).failed = some (some waitTimeoutMessage) ∧
    (mainRun env).tailerArmed = false ∧
    ∀ i, Ev.stoppedPoll i ∉ (mainRun env).trace := by
  rw [mainRun_never_running env h]
  refine ⟨rfl, rfl, rfl, rfl, ?_⟩
  intro i
  simp [timeoutResult, List.mem_append, List.mem_map]

theorem c1_running_wait_timeout_witness :
    (mainRun envNever).runningPolls = 3 ∧
    (mainRun envNever).runningWaitSpec.delaySeconds = 6 ∧
    (mainRun envNever).failed = some (some waitTimeoutMessage) ∧
    (mainRun envNever).tailerArmed = false ∧
    Ev.stoppedPoll 0 ∉ (mainRun envNever).trace :=
  ⟨(c1_running_wait_timeout envNever (fun _ => rfl)).1,
   (c1_running_wait_timeout envNever (fun _ => rfl)).2.1,
   (c1_running_wait_timeout envNever (fun _ => rfl)).2.2.1,
   (c1_running_wait_timeout envNever (fun _ => rfl)).2.2.2.1,
   (c1_running_wait_timeout envNever (fun _ => rfl)).2.2.2.2 0⟩

/-- Claim C2, counterexample to the claim as stated: with the exit code and
the stopped reason both absent, the code reports failure whose surfaced
message is itself absent (`core.setFailed(undefined)` at src/index.js
line 199) — no generic fallback message is substituted. -/
theorem c2_no_generic_fallback :
    (mainRun envAbsent).failed = some none ∧
    (mainRun envAbsent).failed ≠ none := by decide

/-- Claim C2 (amended): in a run that reaches the Result Reconciler — both
waits succeed and the broken log-arming path is not taken (tailing disabled
or no matching awslogs container; on the armed path line 165 throws a
`TypeError` before the reconciler) — the run succeeds iff the first
container's exit code equals 0 (an absent exit code counts as failure); on
failure the surfaced message is the task's stopped reason exactly as the
service reported it, which may itself be absent — no generic fallback
message is substituted. -/
theorem c2_reconciler_outcome (env : MainEnv)
    (h1 : (waitFor env.runningStatus ⟨waiterDelaySeconds, env.maxAttempts⟩).2 = true)
    (h2 : (waitFor env.stoppedStatus ⟨waiterDelaySeconds, env.maxAttempts⟩).2 = true)
    (h3 : armedContainer env = none) :
    ((mainRun env).failed = none ↔ env.exitCode = some 0) ∧
    ((mainRun env).failed =
      if env.exitCode = some 0 then none else some env.stoppedReason) := by
  have hf := mainRun_failed_of_waits env h1 h2 h3
  refine ⟨?_, hf⟩
  rw [hf]
  by_cases hx : env.exitCode = some 0 <;> simp [hx]

theorem c2_reconciler_outcome_witness :
    ((mainRun envOom).failed = none ↔ envOom.exitCode = some 0) ∧
    ((mainRun envOom).failed =
      if envOom.exitCode = some 0 then none else some envOom.stoppedReason) :=
  c2_reconciler_outcome envOom (by decide) (by decide) (by decide)

/-- Claim C3: any fragment sequence delivered by the multiline input layer
in which no fragment ends with the continuation marker is parsed to itself
unchanged. -/
theorem c3_command_identity (raw : String)
    (hmark : ∀ x ∈ getMultilineInput raw, endsWithBackslash x = false) :
    parsedCommand (getMultilineInput raw) = getMultilineInput raw := by
  unfold parsedCommand
  rw [scanCommand_no_marker _ hmark]
  exact filterMap_truthy_map_some _ (getMultilineInput_ne_empty raw)

theorem c3_command_identity_witness :
    parsedCommand (getMultilineInput "echo\nhello") =
      getMultilineInput "echo\nhello" :=
  c3_command_identity "echo\nhello" (by decide)

/-- Claim C4: a fragment ending with the continuation marker that is
followed by another fragment is merged into that next fragment with the
marker removed and no separator inserted; the consumed predecessor is
dropped and the fragments before it pass through in order, with the merged
fragment itself the candidate for further continuation. -/
theorem c4_command_merge (pre : List String) (u v : String)
    (rest : List String)
    (hpre : ∀ x ∈ pre, endsWithBackslash x = false)
    (hprene : ∀ x ∈ pre, x ≠ "")
    (hu : endsWithBackslash u = true) :
    parsedCommand (pre ++ u :: v :: rest) =
      pre ++ parsedCommand ((stripMarker u ++ v) :: rest) := by
  unfold parsedCommand
  rw [scanCommand_append pre (u :: v :: rest) hpre (by simp)]
  have hscan : scanCommand (u :: v :: rest) =
      none :: scanCommand ((stripMarker u ++ v) :: rest) := by
    show scanAux u (v :: rest) = none :: scanAux (stripMarker u ++ v) rest
    simp [scanAux, hu]
  rw [hscan, List.filterMap_append, filterMap_truthy_map_some pre hprene]
  simp [List.filterMap_cons, truthy]

theorem c4_command_merge_witness :
    parsedCommand ["echo", "hel\\", "lo"] =
      ["echo"] ++ parsedCommand [stripMarker "hel\\" ++ "lo"] :=
  c4_command_merge ["echo"] "hel\\" "lo" [] (by decide) (by decide) (by decide)

/-- Claim C5: an environment fragment is split on the first equals sign
only — the left side is the name, the whole right side (which may contain
further equals signs or be empty) is the value — and the fragment list is
mapped entry by entry, so repeated names are not deduplicated. -/
theorem c5_env_split_first (n v : String) (l : List String)
    (hn : '=' ∉ n.toList) :
    parseEnvEntry (n ++ "=" ++ v) = (n, some v) ∧
    (parseEnvironment l).length = l.length := by
  refine ⟨?_, by simp [parseEnvironment]⟩
  simp only [parseEnvEntry]
  have hl : (n ++ "=" ++ v).toList = (n.toList ++ ['=']) ++ v.toList := rfl
  have h2 : (n.toList ++ ['=']) ++ v.toList = n.toList ++ '=' :: v.toList :=
    List.append_assoc n.toList ['='] v.toList
  rw [hl, h2, breakOnEq_first n.toList v.toList hn]
  rfl

theorem c5_env_split_first_witness :
    parseEnvEntry ("KEY" ++ "=" ++ "a=b") = ("KEY", some "a=b") ∧
    (parseEnvironment ["K=1", "K=2"]).length = 2 :=
  c5_env_split_first "KEY" "a=b" ["K=1", "K=2"] (by decide)

/-- Claim C6, code divergence: in a run with tailing requested and an
awslogs container available, the trace shows the tailer armed only after
the stopped-wait poll has already completed, and the run then aborts at
once with the line-165 `TypeError` — there is no streaming concurrent with
the stopped-wait (nor any streaming at all). -/
theorem c6_tailer_armed_after_stop :
    (mainRun envTail).trace =
      [Ev.runTask, Ev.runningPoll 0, Ev.stoppedPoll 0,
       Ev.armTailer placeholderLogGroup placeholderLogStream,
       Ev.reportFailed (some onIsNotAFunctionMessage)] := by decide

/-- Claim C7, code divergence: the stream identity actually armed is the
placeholder pair of src/index.js line 163, not the joined
prefix/container/task-id name computed for the debug message. -/
theorem c7_log_stream_placeholder :
    (mainRun envTail).armedLogStream = some placeholderLogStream ∧
    (mainRun envTail).debugStreamName = some "svc/app/abc123" ∧
    (mainRun envTail).armedLogStream ≠ (mainRun envTail).debugStreamName := by
  decide

/-- Claim C8, code divergence: the poll closure captures `startTime` once
and holds no cursor, so two successive invocations against a stream with a
single entry emit that entry twice. -/
theorem c8_poll_refetch_duplicates :
    repeatedPollEmissions
        (pollLogEvents placeholderLogGroup placeholderLogStream 0)
        [LogEvent.mk 5 "hello"] 2 =
      [LogEvent.mk 5 "hello", LogEvent.mk 5 "hello"] := by decide

/-- Claim C9: a failed log-event fetch is caught inside the poll closure:
the error is surfaced only as a console diagnostic and the invocation
returns normally, so no fetch failure propagates out of the poll. -/
theorem c9_fetch_error_nonfatal (c : LogPollClosure)
    (service : LogPollClosure → Except String (List LogEvent)) (e : String)
    (he : service c = Except.error e) :
    invokePoll c service = Except.ok [ConsoleLine.fetchError e] ∧
    exceptOk (invokePoll c service) = true := by
  unfold invokePoll
  rw [he]
  exact ⟨rfl, rfl⟩

theorem c9_fetch_error_nonfatal_witness :
    invokePoll (pollLogEvents placeholderLogGroup placeholderLogStream 0)
        (fun _ => Except.error "connection reset") =
      Except.ok [ConsoleLine.fetchError "connection reset"] ∧
    exceptOk (invokePoll (pollLogEvents placeholderLogGroup placeholderLogStream 0)
        (fun _ => Except.error "connection reset")) = true :=
  c9_fetch_error_nonfatal _ _ "connection reset" rfl

/-- Claim C10: a final fragment ending with the continuation marker has the
marker stripped without any merge; the stripped fragment is kept as the
last command token unless stripping left it empty, in which case the
truthiness filter drops it. -/
theorem c10_trailing_marker (pre : List String) (u : String)
    (hpre : ∀ x ∈ pre, endsWithBackslash x = false)
    (hprene : ∀ x ∈ pre, x ≠ "")
    (hu : endsWithBackslash u = true) :
    parsedCommand (pre ++ [u]) =
      pre ++ (if stripMarker u = "" then [] else [stripMarker u]) := by
  unfold parsedCommand
  rw [scanCommand_append pre [u] hpre (by simp)]
  have hscan : scanCommand [u] = [some (stripMarker u)] := by
    show scanAux u [] = [some (stripMarker u)]
    simp [scanAux, hu]
  rw [hscan, List.filterMap_append, filterMap_truthy_map_some pre hprene]
  by_cases h : stripMarker u = "" <;> simp [List.filterMap_cons, truthy, h]

theorem c10_trailing_marker_witness :
    parsedCommand ["echo", "\\"] =
      ["echo"] ++ (if stripMarker "\\" = "" then [] else [stripMarker "\\"]) :=
  c10_trailing_marker ["echo"] "\\" (by decide) (by decide) (by decide)

end AwsEcsRunTask
